import Mathlib

/-!
Shallow embedding of the `pumpkin-reminder` module (files
`src/reminder/database.py` and `src/reminder/module.py`).

Timestamps (`datetime`) are modelled as integers; the database session is
modelled as an explicit `Store` value holding the list of `ReminderItem`
rows in primary-key (insertion) order, with the autoincrement counter made
explicit.  External collaborators (Discord member resolution, direct-message
sending, reaction events) are modelled as explicit inputs.
-/

/-- Embeds `ReminderStatus` from `database.py` (members `WAITING`,
`REMINDED`, `FAILED`). -/
inductive ReminderStatus where
  | WAITING
  | REMINDED
  | FAILED
deriving DecidableEq, Repr

/-- Names of the enum members, in declaration order (`e.name for e in
ReminderStatus`). -/
def ReminderStatus.allNames : List String := ["WAITING", "REMINDED", "FAILED"]

/-- Embeds `ReminderStatus.str_list`: `", ".join([e.name for e in ReminderStatus])`. -/
def ReminderStatus.str_list : String :=
  String.intercalate ", " ReminderStatus.allNames

/-- Embeds the Python enum name lookup `ReminderStatus[name]`: `some` member
on a valid member name, `none` (a `KeyError` in the source) otherwise. -/
def ReminderStatus.fromName (name : String) : Option ReminderStatus :=
  if name = "WAITING" then some ReminderStatus.WAITING
  else if name = "REMINDED" then some ReminderStatus.REMINDED
  else if name = "FAILED" then some ReminderStatus.FAILED
  else none

/-- Embeds the `ReminderItem` row of `database.py` (columns `idx`,
`guild_id`, `author_id`, `remind_id`, `permalink`, `message`, `origin_date`,
`remind_date`, `status`). -/
structure ReminderItem where
  idx : Nat
  guild_id : Int
  author_id : Int
  remind_id : Int
  permalink : String
  message : Option String
  origin_date : Int
  remind_date : Int
  status : ReminderStatus
deriving DecidableEq, Repr

/-- The database session: rows in primary-key (insertion) order together
with the autoincrement counter for `idx`. -/
structure Store where
  items : List ReminderItem
  nextIdx : Nat
deriving DecidableEq, Repr

/-- The empty database, with the autoincrement counter at 1. -/
def Store.empty : Store := ⟨[], 1⟩

/-- Embeds `ReminderItem.add` (database.py lines 48-92).  The first line of
the body overwrites the caller-supplied `origin_date` with `datetime.now()`
(modelled by the explicit clock argument `now`); then `ValueError` (modelled
as `Except.error ()`) is raised iff `remind_date < origin_date`; otherwise a
new row with a fresh `idx` and status `WAITING` is committed. -/
def ReminderItem.add (s : Store) (now : Int) (guild_id : Int) (author_id : Int)
    (remind_id : Int) (permalink : String) (message : Option String)
    (origin_date : Int) (remind_date : Int) :
    Except Unit (Store × ReminderItem) :=
  let origin_date := now
  if remind_date < origin_date then Except.error ()
  else
    let item : ReminderItem :=
      { idx := s.nextIdx, guild_id := guild_id, author_id := author_id,
        remind_id := remind_id, permalink := permalink, message := message,
        origin_date := origin_date, remind_date := remind_date,
        status := ReminderStatus.WAITING }
    Except.ok ({ items := s.items ++ [item], nextIdx := s.nextIdx + 1 }, item)

/-- Embeds `ReminderItem.reschedule` (database.py lines 157-165): sets
`remind_date` to the new date unconditionally and commits. -/
def ReminderItem.reschedule (item : ReminderItem) (new_date : Int) : ReminderItem :=
  { item with remind_date := new_date }

/-- Applies one optional SQLAlchemy filter: `query.filter(...)` is applied
only when the corresponding keyword argument is not `None`. -/
def optFilter (o : Option α) (p : α → ReminderItem → Bool)
    (l : List ReminderItem) : List ReminderItem :=
  match o with
  | none => l
  | some v => l.filter (p v)

/-- Checks one optional filter criterion against a single row. -/
def optCheck (o : Option α) (p : α → ReminderItem → Bool) (r : ReminderItem) : Bool :=
  match o with
  | none => true
  | some v => p v r

/-- Insertion step of the sort used to model
`order_by(ReminderItem.remind_date.desc())`: the inserted row moves past
every row with a strictly larger `remind_date`. -/
def insertByRemindDateDesc (x : ReminderItem) :
    List ReminderItem → List ReminderItem
  | [] => [x]
  | y :: l =>
    if x.remind_date < y.remind_date then y :: insertByRemindDateDesc x l
    else x :: y :: l

/-- Models `query.order_by(ReminderItem.remind_date.desc())`.  The source
guarantees only that results come out with `remind_date` descending: SQL
fixes neither a tie order nor stability across calls, so this function's
concrete arrangement of equal-`remind_date` rows is a modelling choice, not
a property of the program.  The claim theorems therefore use only
order-insensitive consequences of this definition (membership in the
result). -/
def orderByRemindDateDesc : List ReminderItem → List ReminderItem
  | [] => []
  | y :: l => insertByRemindDateDesc y (orderByRemindDateDesc l)

/-- Embeds `ReminderItem.get_all` (database.py lines 94-148): each supplied
keyword argument adds one filter (equality for `guild_id`, `idx`,
`remind_id`, `status`; strict `>` for the `min_*` dates and strict `<` for
the `max_*` dates, as in the source), and the result is ordered by
`remind_date` descending. -/
def ReminderItem.get_all (guild_id : Option Int) (idx : Option Nat)
    (remind_id : Option Int) (status : Option ReminderStatus)
    (min_origin_date : Option Int) (max_origin_date : Option Int)
    (min_remind_date : Option Int) (max_remind_date : Option Int)
    (store : List ReminderItem) : List ReminderItem :=
  orderByRemindDateDesc
    (optFilter max_remind_date (fun v r => decide (r.remind_date < v))
      (optFilter min_remind_date (fun v r => decide (v < r.remind_date))
        (optFilter max_origin_date (fun v r => decide (r.origin_date < v))
          (optFilter min_origin_date (fun v r => decide (v < r.origin_date))
            (optFilter status (fun v r => decide (r.status = v))
              (optFilter remind_id (fun v r => decide (r.remind_id = v))
                (optFilter idx (fun v r => decide (r.idx = v))
                  (optFilter guild_id (fun v r => decide (r.guild_id = v))
                    store))))))))

/-- Conjunction of all the filter criteria of `ReminderItem.get_all`,
checked against a single row. -/
def matchesArgs (guild_id : Option Int) (idx : Option Nat)
    (remind_id : Option Int) (status : Option ReminderStatus)
    (min_origin_date : Option Int) (max_origin_date : Option Int)
    (min_remind_date : Option Int) (max_remind_date : Option Int)
    (r : ReminderItem) : Bool :=
  optCheck guild_id (fun v r => decide (r.guild_id = v)) r &&
  optCheck idx (fun v r => decide (r.idx = v)) r &&
  optCheck remind_id (fun v r => decide (r.remind_id = v)) r &&
  optCheck status (fun v r => decide (r.status = v)) r &&
  optCheck min_origin_date (fun v r => decide (v < r.origin_date)) r &&
  optCheck max_origin_date (fun v r => decide (r.origin_date < v)) r &&
  optCheck min_remind_date (fun v r => decide (v < r.remind_date)) r &&
  optCheck max_remind_date (fun v r => decide (r.remind_date < v)) r

/-- Session-level view of `get_all`: the query reads the session and
commits nothing, so the store component is returned unchanged. -/
def Store.find (guild_id : Option Int) (idx : Option Nat)
    (remind_id : Option Int) (status : Option ReminderStatus)
    (min_origin_date : Option Int) (max_origin_date : Option Int)
    (min_remind_date : Option Int) (max_remind_date : Option Int)
    (s : Store) : List ReminderItem × Store :=
  (ReminderItem.get_all guild_id idx remind_id status min_origin_date
    max_origin_date min_remind_date max_remind_date s.items, s)

/-- The outcome of `await reminded_user.send(embed=embed)` in `_remind`:
either the direct message goes through, or it raises one of the recoverable
delivery errors caught by the source (`HTTPException`, `Forbidden`). -/
inductive SendOutcome where
  | delivered
  | httpException
  | forbidden
deriving DecidableEq, Repr

/-- Embeds `Reminder._remind` (module.py lines 408-445), returning the item
state persisted when the coroutine finishes.  If member resolution fails the
status is set to `FAILED`, saved, and the function returns.  If the send
raises `HTTPException` or `Forbidden`, the `except` block sets `FAILED` and
saves — but the source has no `return` there, so control falls through to
the lines that set `REMINDED` and save again. -/
def Reminder._remind (memberFound : Bool) (send : SendOutcome)
    (item : ReminderItem) : ReminderItem :=
  if memberFound = false then
    { item with status := ReminderStatus.FAILED }
  else
    match send with
    | SendOutcome.delivered => { item with status := ReminderStatus.REMINDED }
    | _ =>
      let item := { item with status := ReminderStatus.FAILED }
      { item with status := ReminderStatus.REMINDED }

/-- Embeds the selection step of the dispatcher loop `Reminder.reminder`
(module.py lines 30-40): `max_remind_time = datetime.now() + timedelta(seconds=30)`
and `get_all(status=WAITING, max_remind_date=max_remind_time)`. -/
def Reminder.reminder (now : Int) (store : List ReminderItem) : List ReminderItem :=
  let max_remind_time := now + 30
  ReminderItem.get_all none none none (some ReminderStatus.WAITING)
    none none none (some max_remind_time) store

/-- Models the Python test `query is None` on the value returned by
`ReminderItem.get_all`: `Query.all()` returns a list, never `None`, so the
test is constantly false. -/
def queryListIsNone (query : List ReminderItem) : Bool := false

/-- Outcome of the record-resolution step shared by `Reminder.reschedule`
(module.py lines 186-197) and `Reminder.delete` (lines 268-279). -/
inductive LookupOutcome where
  | notFoundReported
  | indexError
  | found (item : ReminderItem)
deriving DecidableEq, Repr

/-- Embeds the record-resolution step of `Reminder.reschedule` and
`Reminder.delete`: `query = get_all(guild_id=..., idx=...)`; the source then
tests `if query is None` to report a missing reminder, and otherwise
evaluates `query[0]`, which raises `IndexError` when the list is empty. -/
def Reminder.lookupForMutation (guild_id : Int) (idx : Nat)
    (store : List ReminderItem) : LookupOutcome :=
  let query := ReminderItem.get_all (some guild_id) (some idx) none none
    none none none none store
  if queryListIsNone query then LookupOutcome.notFoundReported
  else
    match query with
    | [] => LookupOutcome.indexError
    | item :: _ => LookupOutcome.found item

/-- Embeds the date validation and commit of `Reminder.reschedule`
(module.py lines 210 and 254) for a confirmed proposal: the request is
rejected iff `date < datetime.now()`; otherwise `query.reschedule(date)` is
applied, whatever the record's status. -/
def Reminder.rescheduleAttempt (now : Int) (item : ReminderItem)
    (date : Int) : Option ReminderItem :=
  if date < now then none
  else some (item.reschedule date)

/-- One `reaction_add` event: the message reacted on, the emoji, and the
reacting user. -/
structure ReactionEvent where
  message_id : Nat
  emoji : String
  user_id : Int
deriving DecidableEq, Repr

/-- Embeds the `check_id` predicate defined inside `Reminder.reschedule` and
`Reminder.delete` (module.py lines 233-238 and 293-298): the reaction must be
on the proposal's own message, be one of the two offered emojis, and come
from the record's `remind_id` user. -/
def Reminder.check_id (message_id : Nat) (remind_id : Int)
    (e : ReactionEvent) : Bool :=
  decide (e.message_id = message_id) &&
  (decide (e.emoji = "✅") || decide (e.emoji = "❎")) &&
  decide (e.user_id = remind_id)

/-- Embeds `bot.wait_for("reaction_add", check=check_id, timeout=60)` over
the finite trace of reaction events arriving before the timeout: the first
event passing the check resolves the wait; `none` models
`asyncio.TimeoutError`. -/
def Reminder.wait_for (check : ReactionEvent → Bool) :
    List ReactionEvent → Option ReactionEvent
  | [] => none
  | e :: rest => if check e then some e else Reminder.wait_for check rest

/-- How the await-decision step of a mutation confirmation flow resolved. -/
inductive FlowDecision where
  | confirmed
  | cancelled
  | timedOut
deriving DecidableEq, Repr

/-- Embeds the await-decision step of `Reminder.reschedule` (module.py lines
240-257): a timeout applies nothing; a "✅" reaction commits
`query.reschedule(date)`; the only other reaction admitted by `check_id` is
"❎", which applies nothing. -/
def Reminder.rescheduleResolve (message_id : Nat) (item : ReminderItem)
    (date : Int) (events : List ReactionEvent) : ReminderItem × FlowDecision :=
  match Reminder.wait_for (Reminder.check_id message_id item.remind_id) events with
  | none => (item, FlowDecision.timedOut)
  | some reaction =>
    if reaction.emoji = "✅" then (item.reschedule date, FlowDecision.confirmed)
    else (item, FlowDecision.cancelled)

/-- Models Python's `str.upper()`: upper-cases every character of the
string. -/
def strUpper (s : String) : String := ⟨s.data.map Char.toUpper⟩

/-- Reply of the `reminders get` command. -/
inductive RemindersGetReply where
  | invalidStatus (allowed : String)
  | listing (items : List ReminderItem)
deriving DecidableEq, Repr

/-- Default of the `status` parameter of `Reminder.reminders_get`
(module.py line 144). -/
def Reminder.reminders_get_default_status : String := "WAITING"

/-- Embeds `Reminder.reminders_get` (module.py lines 144-160): the status
string is upper-cased and looked up in `ReminderStatus`; on a `KeyError` the
command replies with the allowed values and performs no store query;
otherwise it queries the caller's reminders with that status. -/
def Reminder.reminders_get (guild_id : Int) (author_id : Int)
    (store : List ReminderItem) (status : String) : RemindersGetReply :=
  match ReminderStatus.fromName (strUpper status) with
  | none => RemindersGetReply.invalidStatus ReminderStatus.str_list
  | some st =>
    RemindersGetReply.listing
      (ReminderItem.get_all (some guild_id) none (some author_id) (some st)
        none none none none store)

/-! Helper lemmas about the query embedding. -/

theorem mem_insertByRemindDateDesc {x z : ReminderItem} {l : List ReminderItem} :
    z ∈ insertByRemindDateDesc x l ↔ z = x ∨ z ∈ l := by
  induction l with
  | nil => simp [insertByRemindDateDesc]
  | cons y l ih =>
    by_cases h : x.remind_date < y.remind_date
    · simp only [insertByRemindDateDesc, if_pos h, List.mem_cons, ih]
      tauto
    · simp only [insertByRemindDateDesc, if_neg h, List.mem_cons]

theorem mem_orderByRemindDateDesc {z : ReminderItem} {l : List ReminderItem} :
    z ∈ orderByRemindDateDesc l ↔ z ∈ l := by
  induction l with
  | nil => simp [orderByRemindDateDesc]
  | cons y l ih =>
    simp [orderByRemindDateDesc, mem_insertByRemindDateDesc, ih]

theorem mem_optFilter {o : Option α} {p : α → ReminderItem → Bool}
    {l : List ReminderItem} {z : ReminderItem} :
    z ∈ optFilter o p l ↔ z ∈ l ∧ optCheck o p z = true := by
  cases o with
  | none => simp [optFilter, optCheck]
  | some v => simp [optFilter, optCheck, List.mem_filter]

theorem mem_get_all {g : Option Int} {i : Option Nat} {rm : Option Int}
    {st : Option ReminderStatus} {a b c d : Option Int}
    {store : List ReminderItem} {z : ReminderItem} :
    z ∈ ReminderItem.get_all g i rm st a b c d store ↔
      z ∈ store ∧ matchesArgs g i rm st a b c d z = true := by
  simp only [ReminderItem.get_all, matchesArgs, mem_orderByRemindDateDesc,
    mem_optFilter, Bool.and_eq_true]
  tauto

theorem wait_for_eq_none {check : ReactionEvent → Bool}
    {events : List ReactionEvent} (h : ∀ e ∈ events, check e = false) :
    Reminder.wait_for check events = none := by
  induction events with
  | nil => rfl
  | cons e rest ih =>
    simp only [Reminder.wait_for, h e (List.mem_cons_self e rest),
      Bool.false_eq_true, if_false]
    exact ih (fun e' he' => h e' (List.mem_cons_of_mem e he'))

theorem wait_for_first {check : ReactionEvent → Bool} {pre : List ReactionEvent}
    {e : ReactionEvent} {post : List ReactionEvent}
    (hpre : ∀ e' ∈ pre, check e' = false) (he : check e = true) :
    Reminder.wait_for check (pre ++ e :: post) = some e := by
  induction pre with
  | nil => simp [Reminder.wait_for, he]
  | cons p pre ih =>
    simp only [List.cons_append, Reminder.wait_for,
      hpre p (List.mem_cons_self p pre), Bool.false_eq_true, if_false]
    exact ih (fun e' he' => hpre e' (List.mem_cons_of_mem p he'))

/-! Claim theorems. -/

/-- Claim C1 (code bug): for a `WAITING` record whose target user resolves
but whose direct message raises a recoverable delivery error
(`HTTPException` or `Forbidden`), `_remind` finishes with persisted status
`REMINDED`, not the `FAILED` the claim (and the function's own failure log
message) prescribes: the `except` block lacks a `return`, so the success
path then overwrites the failure status and saves again. -/
theorem remind_send_failure_ends_reminded (item : ReminderItem) :
    (Reminder._remind true SendOutcome.httpException item).status
        = ReminderStatus.REMINDED ∧
    (Reminder._remind true SendOutcome.forbidden item).status
        = ReminderStatus.REMINDED ∧
    (Reminder._remind true SendOutcome.httpException item).status
        ≠ ReminderStatus.FAILED :=
  ⟨rfl, rfl, fun h => ReminderStatus.noConfusion h⟩

/-- Claim C2 (counterexample): with the store clock at 0, a creation call
whose due date equals the creation instant (both 0) succeeds and creates a
`WAITING` record, where the claim demands a failure: `add` rejects only
`remind_date < now`, not `remind_date <= now`. -/
theorem add_due_equal_to_instant_accepted :
    ReminderItem.add Store.empty 0 1 2 3 "url" none 99 0 =
      Except.ok (⟨[⟨1, 1, 2, 3, "url", none, 0, 0, ReminderStatus.WAITING⟩], 2⟩,
        ⟨1, 1, 2, 3, "url", none, 0, 0, ReminderStatus.WAITING⟩) := rfl

/-- Claim C2 (amended): `add` fails (raises `ValueError`) iff the supplied
due date is strictly earlier than the store's own clock reading at the
moment of the call (the caller-supplied `origin_date` playing no role); for
a due date at or after that instant it creates a new record with a fresh id
and status `WAITING`. -/
theorem add_rejects_strictly_past_due (s : Store)
    (now guild_id author_id remind_id : Int) (permalink : String)
    (message : Option String) (origin_date remind_date : Int) :
    (remind_date < now →
      ReminderItem.add s now guild_id author_id remind_id permalink message
        origin_date remind_date = Except.error ()) ∧
    (now ≤ remind_date →
      ∃ s' item, ReminderItem.add s now guild_id author_id remind_id permalink
          message origin_date remind_date = Except.ok (s', item) ∧
        item.status = ReminderStatus.WAITING ∧ item ∈ s'.items ∧
        item.idx = s.nextIdx ∧ item.remind_date = remind_date) := by
  constructor
  · intro h
    simp [ReminderItem.add, h]
  · intro h
    have hnl : ¬ remind_date < now := not_lt.mpr h
    refine ⟨⟨s.items ++ [⟨s.nextIdx, guild_id, author_id, remind_id, permalink,
        message, now, remind_date, ReminderStatus.WAITING⟩], s.nextIdx + 1⟩,
      ⟨s.nextIdx, guild_id, author_id, remind_id, permalink, message, now,
        remind_date, ReminderStatus.WAITING⟩, ?_, rfl, ?_, rfl, rfl⟩
    · simp [ReminderItem.add, hnl]
    · simp

/-- Witness for the amended C2 theorem at concrete inputs: due 5 before the
clock reading 10 is rejected; due 10 exactly at the clock reading 10 is
accepted as `WAITING`. -/
theorem add_rejects_strictly_past_due_witness :
    ReminderItem.add Store.empty 10 1 2 3 "u" none 0 5 = Except.error () ∧
    ∃ s' item, ReminderItem.add Store.empty 10 1 2 3 "u" none 0 10 =
        Except.ok (s', item) ∧ item.status = ReminderStatus.WAITING ∧
      item ∈ s'.items ∧ item.idx = Store.empty.nextIdx ∧ item.remind_date = 10 :=
  ⟨(add_rejects_strictly_past_due Store.empty 10 1 2 3 "u" none 0 5).1 (by decide),
   (add_rejects_strictly_past_due Store.empty 10 1 2 3 "u" none 0 10).2 (by decide)⟩

/-- Claim C3 (counterexample): with the clock at 0, a confirmed reschedule
mutates a terminal `FAILED` record (no status check exists on the path),
and mutates a `WAITING` record to the present instant 0 (the guard rejects
only strictly past dates). -/
theorem reschedule_mutates_terminal_and_present :
    Reminder.rescheduleAttempt 0
        ⟨1, 1, 2, 2, "u", none, 0, 10, ReminderStatus.FAILED⟩ 5 =
      some ⟨1, 1, 2, 2, "u", none, 0, 5, ReminderStatus.FAILED⟩ ∧
    Reminder.rescheduleAttempt 0
        ⟨1, 1, 2, 2, "u", none, 0, 10, ReminderStatus.WAITING⟩ 0 =
      some ⟨1, 1, 2, 2, "u", none, 0, 0, ReminderStatus.WAITING⟩ := ⟨rfl, rfl⟩

/-- Claim C3 (amended): a confirmed reschedule mutates `remind_date`
whenever the new date is not strictly in the past at call time, regardless
of the record's status (terminal records included), leaving every other
field unchanged; only a strictly past new date makes the operation fail
with the record untouched. -/
theorem reschedule_strict_past_only (now : Int) (item : ReminderItem)
    (date : Int) :
    (date < now → Reminder.rescheduleAttempt now item date = none) ∧
    (now ≤ date →
      Reminder.rescheduleAttempt now item date = some (item.reschedule date) ∧
      (item.reschedule date).remind_date = date ∧
      (item.reschedule date).status = item.status ∧
      (item.reschedule date).idx = item.idx) := by
  constructor
  · intro h
    simp [Reminder.rescheduleAttempt, h]
  · intro h
    exact ⟨by simp [Reminder.rescheduleAttempt, not_lt.mpr h], rfl, rfl, rfl⟩

/-- Witness for the amended C3 theorem: a reschedule to 3 at clock 10 fails;
at clock 0 a terminal `FAILED` record is rescheduled to 5 with its status
untouched. -/
theorem reschedule_strict_past_only_witness :
    Reminder.rescheduleAttempt 10
        ⟨1, 1, 2, 2, "u", none, 0, 7, ReminderStatus.WAITING⟩ 3 = none ∧
    (Reminder.rescheduleAttempt 0
        ⟨1, 1, 2, 2, "u", none, 0, 10, ReminderStatus.FAILED⟩ 5 =
      some ((⟨1, 1, 2, 2, "u", none, 0, 10, ReminderStatus.FAILED⟩ :
        ReminderItem).reschedule 5) ∧
      ((⟨1, 1, 2, 2, "u", none, 0, 10, ReminderStatus.FAILED⟩ :
        ReminderItem).reschedule 5).remind_date = 5 ∧
      ((⟨1, 1, 2, 2, "u", none, 0, 10, ReminderStatus.FAILED⟩ :
        ReminderItem).reschedule 5).status =
        (⟨1, 1, 2, 2, "u", none, 0, 10, ReminderStatus.FAILED⟩ :
          ReminderItem).status ∧
      ((⟨1, 1, 2, 2, "u", none, 0, 10, ReminderStatus.FAILED⟩ :
        ReminderItem).reschedule 5).idx =
        (⟨1, 1, 2, 2, "u", none, 0, 10, ReminderStatus.FAILED⟩ :
          ReminderItem).idx) :=
  ⟨(reschedule_strict_past_only 10
      ⟨1, 1, 2, 2, "u", none, 0, 7, ReminderStatus.WAITING⟩ 3).1 (by decide),
   (reschedule_strict_past_only 0
      ⟨1, 1, 2, 2, "u", none, 0, 10, ReminderStatus.FAILED⟩ 5).2 (by decide)⟩

/-- Claim C4 (code bug): when no record with the requested id exists in the
caller's guild, the record-resolution step shared by `Reminder.reschedule`
and `Reminder.delete` reaches `query[0]` on the empty query result and
raises `IndexError`: the `if query is None` guard never fires on the list
returned by `get_all`, so the "does not exist" reply is unreachable and the
command crashes instead of reporting NotFound. -/
theorem lookup_missing_id_raises_index_error (guild_id : Int) (idx : Nat)
    (store : List ReminderItem)
    (h : ∀ r ∈ store, ¬(r.guild_id = guild_id ∧ r.idx = idx)) :
    Reminder.lookupForMutation guild_id idx store = LookupOutcome.indexError ∧
    ∀ store' : List ReminderItem,
      Reminder.lookupForMutation guild_id idx store' ≠
        LookupOutcome.notFoundReported := by
  constructor
  · have hnil : ReminderItem.get_all (some guild_id) (some idx) none none
        none none none none store = [] := by
      rw [List.eq_nil_iff_forall_not_mem]
      intro z hz
      rw [mem_get_all] at hz
      have hm := hz.2
      simp [matchesArgs, optCheck] at hm
      exact h z hz.1 ⟨hm.1, hm.2⟩
    simp [Reminder.lookupForMutation, queryListIsNone, hnil]
  · intro store'
    simp only [Reminder.lookupForMutation, queryListIsNone, if_false]
    cases ReminderItem.get_all (some guild_id) (some idx) none none
        none none none none store' with
    | nil => simp
    | cons a l => simp

/-- Witness for the C4 theorem: on a store whose only record has idx 4, the
lookup for idx 5 ends in `IndexError`. -/
theorem lookup_missing_id_raises_index_error_witness :
    Reminder.lookupForMutation 1 5
      [⟨4, 1, 2, 3, "u", none, 0, 9, ReminderStatus.WAITING⟩] =
      LookupOutcome.indexError :=
  (lookup_missing_id_raises_index_error 1 5
    [⟨4, 1, 2, 3, "u", none, 0, 9, ReminderStatus.WAITING⟩] (by decide)).1

/-- Claim C5 (counterexample): a `WAITING` record due exactly at the horizon
(clock 0, due 30 = 0 + 30) is not selected by the dispatcher cycle, because
`get_all` filters with strict `remind_date < max_remind_date`, while the
claim says a record whose due date equals the horizon is included. -/
theorem cycle_excludes_due_exactly_at_horizon :
    Reminder.reminder 0
      [⟨1, 1, 2, 3, "u", none, 0, 30, ReminderStatus.WAITING⟩] = [] := by
  decide

/-- Claim C5 (amended): each dispatcher cycle selects exactly the records
with status `WAITING` and due date strictly below `horizon = now + 30`; a
record due at time T is therefore picked up by the first cycle whose
horizon is strictly greater than T, and one due exactly at the horizon is
excluded from that cycle's selection. -/
theorem cycle_selects_strictly_before_horizon (now : Int)
    (store : List ReminderItem) (r : ReminderItem) :
    r ∈ Reminder.reminder now store ↔
      r ∈ store ∧ r.status = ReminderStatus.WAITING ∧
        r.remind_date < now + 30 := by
  unfold Reminder.reminder
  rw [mem_get_all]
  simp [matchesArgs, optCheck]

/-- Witness for the amended C5 theorem: a record due at 29 with the clock at
0 is selected by the cycle. -/
theorem cycle_selects_strictly_before_horizon_witness :
    (⟨1, 1, 2, 3, "u", none, 0, 29, ReminderStatus.WAITING⟩ : ReminderItem) ∈
      Reminder.reminder 0
        [⟨1, 1, 2, 3, "u", none, 0, 29, ReminderStatus.WAITING⟩] :=
  (cycle_selects_strictly_before_horizon 0
    [⟨1, 1, 2, 3, "u", none, 0, 29, ReminderStatus.WAITING⟩]
    ⟨1, 1, 2, 3, "u", none, 0, 29, ReminderStatus.WAITING⟩).mpr (by decide)

/-- Claim C7: in the await-decision step of the reschedule confirmation
flow, only a "✅" or "❎" reaction on the proposal's own message from the
record's target (`remind_id`) resolves the flow: if every arriving reaction
is from another identity or on an unrelated message the flow times out with
no mutation; the first matching "✅" commits the reschedule; the first
matching "❎" aborts with no mutation. -/
theorem reschedule_await_decision (message_id : Nat) (item : ReminderItem)
    (date : Int) (events : List ReactionEvent) :
    ((∀ e ∈ events, e.user_id ≠ item.remind_id ∨ e.message_id ≠ message_id) →
      Reminder.rescheduleResolve message_id item date events =
        (item, FlowDecision.timedOut)) ∧
    (∀ pre e post, events = pre ++ e :: post →
      (∀ e' ∈ pre, Reminder.check_id message_id item.remind_id e' = false) →
      e.message_id = message_id → e.user_id = item.remind_id →
      ((e.emoji = "✅" →
        Reminder.rescheduleResolve message_id item date events =
          (item.reschedule date, FlowDecision.confirmed)) ∧
       (e.emoji = "❎" →
        Reminder.rescheduleResolve message_id item date events =
          (item, FlowDecision.cancelled)))) := by
  constructor
  · intro h
    unfold Reminder.rescheduleResolve
    rw [wait_for_eq_none]
    intro e he
    rcases h e he with h' | h' <;> simp [Reminder.check_id, h']
  · intro pre e post hev hpre hmsg huser
    constructor
    · intro hconf
      unfold Reminder.rescheduleResolve
      rw [hev, wait_for_first hpre
        (by simp [Reminder.check_id, hmsg, huser, hconf])]
      simp [hconf]
    · intro hcanc
      unfold Reminder.rescheduleResolve
      rw [hev, wait_for_first hpre
        (by simp [Reminder.check_id, hmsg, huser, hcanc])]
      simp [hcanc]

/-- Witness for the C7 theorem: a reaction on another message and one from
a non-target user leave the flow timing out; the target's "✅" on the
proposal message (after a non-target "✅") commits; the target's "❎"
aborts. -/
theorem reschedule_await_decision_witness :
    (Reminder.rescheduleResolve 7
        ⟨1, 1, 2, 2, "u", none, 0, 10, ReminderStatus.WAITING⟩ 20
        [⟨9, "✅", 2⟩, ⟨7, "✅", 3⟩] =
      (⟨1, 1, 2, 2, "u", none, 0, 10, ReminderStatus.WAITING⟩,
        FlowDecision.timedOut)) ∧
    (Reminder.rescheduleResolve 7
        ⟨1, 1, 2, 2, "u", none, 0, 10, ReminderStatus.WAITING⟩ 20
        [⟨7, "✅", 3⟩, ⟨7, "✅", 2⟩] =
      (⟨1, 1, 2, 2, "u", none, 0, 20, ReminderStatus.WAITING⟩,
        FlowDecision.confirmed)) ∧
    (Reminder.rescheduleResolve 7
        ⟨1, 1, 2, 2, "u", none, 0, 10, ReminderStatus.WAITING⟩ 20
        [⟨7, "❎", 2⟩] =
      (⟨1, 1, 2, 2, "u", none, 0, 10, ReminderStatus.WAITING⟩,
        FlowDecision.cancelled)) :=
  ⟨(reschedule_await_decision 7
      ⟨1, 1, 2, 2, "u", none, 0, 10, ReminderStatus.WAITING⟩ 20
      [⟨9, "✅", 2⟩, ⟨7, "✅", 3⟩]).1 (by decide),
   ((reschedule_await_decision 7
      ⟨1, 1, 2, 2, "u", none, 0, 10, ReminderStatus.WAITING⟩ 20
      [⟨7, "✅", 3⟩, ⟨7, "✅", 2⟩]).2 [⟨7, "✅", 3⟩] ⟨7, "✅", 2⟩ []
      rfl (by decide) rfl rfl).1 rfl,
   ((reschedule_await_decision 7
      ⟨1, 1, 2, 2, "u", none, 0, 10, ReminderStatus.WAITING⟩ 20
      [⟨7, "❎", 2⟩]).2 [] ⟨7, "❎", 2⟩ []
      rfl (by decide) rfl rfl).2 rfl⟩

/-- Claim C8: `reminders get` defaults its status argument to "WAITING",
and a status string whose upper-casing is none of the enumerated member
names makes the command reply with the allowed values
("WAITING, REMINDED, FAILED") and perform no store query: the reply is the
same whatever the store contains. -/
theorem reminders_get_invalid_status (guild_id author_id : Int)
    (store store' : List ReminderItem) (status : String)
    (h : strUpper status ∉ ReminderStatus.allNames) :
    Reminder.reminders_get guild_id author_id store status =
      RemindersGetReply.invalidStatus "WAITING, REMINDED, FAILED" ∧
    Reminder.reminders_get guild_id author_id store status =
      Reminder.reminders_get guild_id author_id store' status ∧
    Reminder.reminders_get_default_status = "WAITING" := by
  have hnone : ReminderStatus.fromName (strUpper status) = none := by
    simp only [ReminderStatus.allNames, List.mem_cons, List.not_mem_nil,
      or_false, not_or] at h
    simp [ReminderStatus.fromName, h.1, h.2.1, h.2.2]
  refine ⟨?_, ?_, rfl⟩
  · simp only [Reminder.reminders_get, hnone]
    have hs : ReminderStatus.str_list = "WAITING, REMINDED, FAILED" := by decide
    rw [hs]
  · simp [Reminder.reminders_get, hnone]

/-- Witness for the C8 theorem at the status string "bogus". -/
theorem reminders_get_invalid_status_witness :
    Reminder.reminders_get 1 2 [] "bogus" =
      RemindersGetReply.invalidStatus "WAITING, REMINDED, FAILED" ∧
    Reminder.reminders_get 1 2 [] "bogus" =
      Reminder.reminders_get 1 2
        [⟨1, 1, 2, 3, "u", none, 0, 5, ReminderStatus.WAITING⟩] "bogus" ∧
    Reminder.reminders_get_default_status = "WAITING" :=
  reminders_get_invalid_status 1 2 []
    [⟨1, 1, 2, 3, "u", none, 0, 5, ReminderStatus.WAITING⟩] "bogus" (by decide)

/-- Claim C9: the caller-supplied `origin_date` argument of `add` is
discarded and never stored: the result of `add` does not depend on it, and
any created record's `origin_date` equals the store's own clock reading
`now` at the moment of the call. -/
theorem add_discards_supplied_origin_date (s : Store)
    (now guild_id author_id remind_id : Int) (permalink : String)
    (message : Option String) (o1 o2 remind_date : Int) :
    ReminderItem.add s now guild_id author_id remind_id permalink message
        o1 remind_date =
      ReminderItem.add s now guild_id author_id remind_id permalink message
        o2 remind_date ∧
    (∀ s' item, ReminderItem.add s now guild_id author_id remind_id permalink
        message o1 remind_date = Except.ok (s', item) →
      item.origin_date = now) := by
  constructor
  · rfl
  · intro s' item h
    simp only [ReminderItem.add] at h
    split at h
    · exact absurd h (by simp)
    · cases h
      rfl

/-- Witness for the C9 theorem: supplied origin dates 0 and 99 give the same
result, and the created record carries the clock reading 10. -/
theorem add_discards_supplied_origin_date_witness :
    ReminderItem.add Store.empty 10 1 2 3 "u" none 0 15 =
      ReminderItem.add Store.empty 10 1 2 3 "u" none 99 15 ∧
    (⟨1, 1, 2, 3, "u", none, 10, 15, ReminderStatus.WAITING⟩ :
      ReminderItem).origin_date = 10 :=
  ⟨(add_discards_supplied_origin_date Store.empty 10 1 2 3 "u" none 0 99 15).1,
   (add_discards_supplied_origin_date Store.empty 10 1 2 3 "u" none 0 99 15).2
     ⟨[⟨1, 1, 2, 3, "u", none, 10, 15, ReminderStatus.WAITING⟩], 2⟩
     ⟨1, 1, 2, 3, "u", none, 10, 15, ReminderStatus.WAITING⟩ rfl⟩

/-- Claim C10: every record returned by `get_all` satisfies the conjunction
of all supplied filter criteria and is a record of the store returned
unmodified, and the session-level query leaves the store unchanged. -/
theorem get_all_filters_conjoin (g : Option Int) (i : Option Nat)
    (rm : Option Int) (st : Option ReminderStatus) (a b c d : Option Int)
    (s : Store) :
    (∀ r ∈ ReminderItem.get_all g i rm st a b c d s.items,
      matchesArgs g i rm st a b c d r = true ∧ r ∈ s.items) ∧
    (Store.find g i rm st a b c d s).2 = s := by
  refine ⟨?_, rfl⟩
  intro r hr
  rw [mem_get_all] at hr
  exact ⟨hr.2, hr.1⟩

/-- Witness for the C10 theorem: the single record returned by a filtered
query satisfies both supplied criteria and is the stored record itself. -/
theorem get_all_filters_conjoin_witness :
    matchesArgs (some 1) none none (some ReminderStatus.WAITING)
        none none none none
        ⟨1, 1, 2, 3, "u", none, 0, 5, ReminderStatus.WAITING⟩ = true ∧
    (⟨1, 1, 2, 3, "u", none, 0, 5, ReminderStatus.WAITING⟩ : ReminderItem) ∈
      [⟨1, 1, 2, 3, "u", none, 0, 5, ReminderStatus.WAITING⟩] :=
  (get_all_filters_conjoin (some 1) none none (some ReminderStatus.WAITING)
      none none none none
      ⟨[⟨1, 1, 2, 3, "u", none, 0, 5, ReminderStatus.WAITING⟩], 2⟩).1
    ⟨1, 1, 2, 3, "u", none, 0, 5, ReminderStatus.WAITING⟩ (by decide)

